import Mathlib

/-!
Verification of the MiniJS C++ embedding layer (`MiniJspp.hpp` over the C ABI
declared in `Api.h`).

The development shallowly embeds the host-side binding layer:

* `Kind` / `MValue` model the ABI value transport (`minijs_kind`,
  `minijs_value`); the `int32_t` kind discriminant is an `Int`, the C `double`
  payload is modelled as `Rat` (the layer never computes with it beyond
  copying and comparing against zero), nullable pointers are `Option`.
* `Value` models the RAII wrapper `minijspp::Value`.  Calls into the runtime
  (`minijs_handle_retain`, `minijs_handle_release`, `minijs_global_declare`,
  the object/array/class entry points, callback invocation) are not executed;
  instead every operation also returns the list of boundary calls it makes,
  as `Ev` events, so ownership discipline is a statement about event traces.
* Runtime responses to read queries are an oracle (`Runtime`).
* A C++ exception thrown by a host closure is modelled by `CbResult`:
  `.ok` for normal return, `.exn msg` for a `std::exception` whose `what()`
  is `msg`, `.exnOther` for any other thrown object.  The trampoline is a
  total Lean function: totality is the model of "no exception crosses the
  ABI boundary".
-/

namespace MiniJspp

/-- `minijs_kind` from `Api.h` / `Value::Kind` from `MiniJspp.hpp`.
`cls` stands for the C++ enumerator `Class` (a Lean keyword). -/
inductive Kind : Type
  | null
  | number
  | bool
  | string
  | array
  | object
  | function
  | cls
  | task
  deriving DecidableEq, Repr

/-- The `int32_t` value of each enumerator (`MINIJS_NULL = 0`, ..., `MINIJS_TASK = 8`). -/
def Kind.toInt : Kind → Int
  | .null => 0
  | .number => 1
  | .bool => 2
  | .string => 3
  | .array => 4
  | .object => 5
  | .function => 6
  | .cls => 7
  | .task => 8

/-- `Value::isHandleKind()`. -/
def Kind.isHandleKind : Kind → Bool
  | .array => true
  | .object => true
  | .function => true
  | .cls => true
  | .task => true
  | _ => false

/-- The ABI transport record `minijs_value`.  `str` and `handle` are nullable
pointers; a handle is identified by a `Nat`. -/
structure MValue : Type where
  kind : Int
  num : Rat
  boolean : Int
  str : Option String
  handle : Option Nat
  deriving DecidableEq, Repr

/-- `minijs_value r{}` — zero initialization (kind `MINIJS_NULL`). -/
def MValue.nullM : MValue := ⟨0, 0, 0, none, none⟩

/-- Boundary calls made by the host layer into the runtime, plus the
`cbInvoked` marker for invocation of a registered host closure. -/
inductive Ev : Type
  | retain (h : Nat)
  | release (h : Nat)
  | globalDeclare (name : String) (nv : MValue)
  | objectHas (h : Nat) (key : String)
  | objectGet (h : Nat) (key : String)
  | objectSet (h : Nat) (key : String) (nv : MValue)
  | objectKeys (h : Nat)
  | arrayLength (h : Nat)
  | arrayGet (h : Nat) (i : Int)
  | arraySet (h : Nat) (i : Int) (nv : MValue)
  | arrayPush (h : Nat) (nv : MValue)
  | classAddMethod (h : Nat) (m : String) (fn : Option Nat)
  | cbInvoked
  deriving DecidableEq, Repr

/-- The RAII wrapper `minijspp::Value`: fields `_kind`, `_num`, `_b`, `_s`, `_h`. -/
structure Value : Type where
  kind : Kind
  num : Rat
  b : Bool
  s : String
  h : Option Nat
  deriving DecidableEq, Repr

/-- `Value::Value()` / `Value::Null()`. -/
def Value.nullV : Value := ⟨.null, 0, false, "", none⟩

/-- `Value::Number`. -/
def Value.numberV (n : Rat) : Value := ⟨.number, n, false, "", none⟩

/-- `Value::Bool`. -/
def Value.boolV (bv : Bool) : Value := ⟨.bool, 0, bv, "", none⟩

/-- `Value::String`. -/
def Value.stringV (s : String) : Value := ⟨.string, 0, false, s, none⟩

/-- `Value::Handle(k, h, retain)`: retains iff `retain && v._h` (note: the
source performs the retain without checking that `k` is a handle kind). -/
def Value.handleMk (k : Kind) (h : Option Nat) (retain : Bool) : Value × List Ev :=
  (⟨k, 0, false, "", h⟩,
    match h with
    | some p => if retain then [Ev.retain p] else []
    | none => [])

/-- `Value::toNumber(def)`. -/
def Value.toNumber (v : Value) (d : Rat) : Rat :=
  if v.kind = .number then v.num
  else if v.kind = .bool then (if v.b then 1 else 0)
  else d

/-- `Value::toBool(def)`. -/
def Value.toBool (v : Value) (d : Bool) : Bool :=
  if v.kind = .bool then v.b
  else if v.kind = .number then decide (v.num ≠ 0)
  else d

/-- `Value::detachHandle()`: returns the raw handle and resets every field
(`_h = nullptr`, `_kind = Null`, `_num = 0`, `_b = false`, `_s.clear()`). -/
def Value.detachHandle (v : Value) : Option Nat × Value :=
  (v.h, Value.nullV)

/-- `Value::cleanup()` (also the destructor body): releases iff the wrapper
holds a non-null handle of a handle kind. -/
def Value.cleanup (v : Value) : List Ev :=
  match v.h with
  | some p => if v.kind.isHandleKind then [Ev.release p] else []
  | none => []

/-- The retain performed by the copy constructor / copy assignment
(`if (_h && isHandleKind()) minijs_handle_retain(_h)` with the fields just
copied from `o`). -/
def Value.copyRetainEv (o : Value) : List Ev :=
  match o.h with
  | some p => if o.kind.isHandleKind then [Ev.retain p] else []
  | none => []

/-- `Value::Value(const Value&)`: copies every field, then retains if the new
wrapper holds a handle of a handle kind.  Result: the constructed wrapper and
the emitted boundary calls. -/
def Value.copyCtor (o : Value) : Value × List Ev :=
  (o, Value.copyRetainEv o)

/-- `Value::operator=(const Value&)` on two *distinct* wrappers (the
`this == &o` self-assignment shortcut is handled at the `Op` level, where
wrapper identity exists): cleans up the destination, copies the fields,
retains the new handle. -/
def Value.copyAssignF (dst o : Value) : Value × List Ev :=
  (o, dst.cleanup ++ Value.copyRetainEv o)

/-- `Value::Value(Value&&)`: steals every field, nulls the source
(`_h = nullptr`, `_kind = Null`, `_num = 0`, `_b = false`; the moved-from
`std::string` is modelled as empty).  Result: (constructed, source-after,
emitted calls — none). -/
def Value.moveCtor (o : Value) : Value × Value × List Ev :=
  (o, Value.nullV, [])

/-- `Value::operator=(Value&&)` on two *distinct* wrappers: cleans up the
destination, steals the fields, nulls the source.  Result: (destination-after,
source-after, emitted calls). -/
def Value.moveAssignF (dst o : Value) : Value × Value × List Ev :=
  (o, Value.nullV, dst.cleanup)

/-- `Value::fromNative(nv, retainHandle)`: switch over the raw `int32_t`
discriminant; any value outside the nine enumerators falls through to
`Value::Null()`. -/
def Value.fromNative (nv : MValue) (retainHandle : Bool) : Value × List Ev :=
  if nv.kind = 0 then (Value.nullV, [])
  else if nv.kind = 1 then (Value.numberV nv.num, [])
  else if nv.kind = 2 then (Value.boolV (decide (nv.boolean ≠ 0)), [])
  else if nv.kind = 3 then
    (Value.stringV (match nv.str with | some s => s | none => ""), [])
  else if nv.kind = 4 then Value.handleMk .array nv.handle retainHandle
  else if nv.kind = 5 then Value.handleMk .object nv.handle retainHandle
  else if nv.kind = 6 then Value.handleMk .function nv.handle retainHandle
  else if nv.kind = 7 then Value.handleMk .cls nv.handle retainHandle
  else if nv.kind = 8 then Value.handleMk .task nv.handle retainHandle
  else (Value.nullV, [])

/-- `Engine::valueToNativeArg(v, outTempStr)`.  The function never allocates a
temporary (`*outTempStr` stays null: the string case points into `v`'s own
buffer), so the temporary is not modelled. -/
def Engine.valueToNativeArg (v : Value) : MValue :=
  match v.kind with
  | .null => ⟨0, 0, 0, none, none⟩
  | .number => ⟨1, v.toNumber 0, 0, none, none⟩
  | .bool => ⟨2, 0, if v.toBool false then 1 else 0, none, none⟩
  | .string => ⟨3, 0, 0, some v.s, none⟩
  | k => ⟨k.toInt, 0, 0, none, v.h⟩

/-- `Engine::declareCopy(name, v)`: builds the transport record, and for a
non-null handle of handle kind retains a duplicate reference *before* the
consuming `minijs_global_declare` call.  `v` is taken by const reference, so
the returned wrapper state is `v` itself. -/
def Engine.declareCopy (name : String) (v : Value) : Value × List Ev :=
  let nv := Engine.valueToNativeArg v
  match v.h with
  | some p =>
    if v.kind.isHandleKind then
      (v, [Ev.retain p, Ev.globalDeclare name { nv with handle := some p }])
    else (v, [Ev.globalDeclare name nv])
  | none => (v, [Ev.globalDeclare name nv])

/-- `Engine::declareMove(name, v)`: for a non-null handle of handle kind the
handle is detached from `v` and handed to `minijs_global_declare`; otherwise
`v` is left untouched.  Returns `v`'s post-call wrapper state and the
boundary calls. -/
def Engine.declareMove (name : String) (v : Value) : Value × List Ev :=
  let nv := Engine.valueToNativeArg v
  if v.kind.isHandleKind && v.h.isSome then
    let d := v.detachHandle
    (d.2, [Ev.globalDeclare name { nv with handle := d.1 }])
  else
    (v, [Ev.globalDeclare name nv])

/-!  The minimal array-of-strings parser inside `Object::keys`. -/

/-- The whitespace skip (`skipws` lambda in `Object::keys`). -/
def skipws : List Char → List Char
  | [] => []
  | c :: r =>
    if c = ' ' ∨ c = '\t' ∨ c = '\r' ∨ c = '\n' then skipws r else c :: r

/-- The `switch (e)` decoding one escaped character. -/
def escChar (e : Char) : Char :=
  if e = '\\' then '\\'
  else if e = '"' then '"'
  else if e = 'n' then '\n'
  else if e = 'r' then '\r'
  else if e = 't' then '\t'
  else e

/-- The inner character loop of `Object::keys`: consumes characters up to and
including the closing quote (or the end of input), decoding escapes.  Returns
the decoded characters and the unconsumed remainder. -/
def readStr : List Char → List Char × List Char
  | [] => ([], [])
  | c :: rest =>
    if c = '"' then ([], rest)
    else if c = '\\' then
      match rest with
      | [] => ([c], [])
      | e :: rest2 =>
        let r := readStr rest2
        (escChar e :: r.1, r.2)
    else
      let r := readStr rest
      (c :: r.1, r.2)

/-- The outer `while` loop of `Object::keys`, translated with a fuel
parameter standing for the loop's termination measure: every iteration that
does not exit consumes at least the opening quote, so the character count of
the input (plus one) bounds the iteration count and `itemsF` with that fuel
never reaches the `0` case that the loop cannot reach. -/
def itemsF : Nat → List Char → List String
  | 0, _ => []
  | fuel + 1, l =>
    let l1 := skipws l
    match l1 with
    | [] => []
    | ']' :: _ => []
    | '"' :: rest =>
      let pr := readStr rest
      let r3 := skipws pr.2
      (match r3 with
       | ',' :: r4 => String.mk pr.1 :: itemsF fuel r4
       | other =>
         let r5 := skipws other
         match r5 with
         | ']' :: _ => [String.mk pr.1]
         | _ => String.mk pr.1 :: itemsF fuel r5)
    | _ :: _ => []

/-- `Object::keys`'s parse of the runtime's array-of-strings text: skip
whitespace, require `'['`, then run the element loop. -/
def parseKeys (s : String) : List String :=
  match skipws s.data with
  | '[' :: rest => itemsF (rest.length + 1) (skipws rest)
  | _ => []

/-- Oracle for the runtime's answers to the read-side boundary calls. -/
structure Runtime : Type where
  objectHasF : Nat → String → Int
  objectGetF : Nat → String → MValue
  objectKeysF : Nat → Option String
  arrayLengthF : Nat → Int
  arrayGetF : Nat → Int → MValue

/-- The view `minijspp::Object` (wraps a `Value`). -/
structure Obj : Type where
  v : Value

/-- The view `minijspp::Array`. -/
structure Arr : Type where
  v : Value

/-- The view `minijspp::Function`. -/
structure Fn : Type where
  v : Value

/-- The view `minijspp::Class`. -/
structure Cls : Type where
  v : Value

/-- `Object::Object(Value)`: kind check at construction, throwing on
mismatch. -/
def Obj.fromValue (v : Value) : Except String Obj :=
  if v.kind = .object then .ok ⟨v⟩ else .error "Object: Value is not an object"

/-- `Array::Array(Value)`. -/
def Arr.fromValue (v : Value) : Except String Arr :=
  if v.kind = .array then .ok ⟨v⟩ else .error "Array: Value is not an array"

/-- `Function::Function(Value)`. -/
def Fn.fromValue (v : Value) : Except String Fn :=
  if v.kind = .function then .ok ⟨v⟩ else .error "Function: Value is not a function"

/-- `Class::Class(Value)`. -/
def Cls.fromValue (v : Value) : Except String Cls :=
  if v.kind = .cls then .ok ⟨v⟩ else .error "Class: Value is not a class"

/-- `Object::has`. -/
def Obj.has (rt : Runtime) (o : Obj) (key : String) : Bool × List Ev :=
  match o.v.h with
  | none => (false, [])
  | some h => (decide (rt.objectHasF h key ≠ 0), [Ev.objectHas h key])

/-- `Object::get`: queries the runtime, converts without retaining (a read
accessor hands back a fresh reference / allocator-owned string). -/
def Obj.get (rt : Runtime) (o : Obj) (key : String) : Value × List Ev :=
  match o.v.h with
  | none => (Value.nullV, [])
  | some h =>
    let out := rt.objectGetF h key
    let c := Value.fromNative out false
    (c.1, [Ev.objectGet h key] ++ c.2)

/-- `Object::set`: throws on a null handle, otherwise converts and writes. -/
def Obj.set (o : Obj) (key : String) (x : Value) : Except String (List Ev) :=
  match o.v.h with
  | none => .error "Object::set on null handle"
  | some h => .ok [Ev.objectSet h key (Engine.valueToNativeArg x)]

/-- `Object::keys`: null handle (or a null text from the runtime) yields the
empty sequence; otherwise the text is parsed by the minimal parser. -/
def Obj.keys (rt : Runtime) (o : Obj) : List String × List Ev :=
  match o.v.h with
  | none => ([], [])
  | some h =>
    match rt.objectKeysF h with
    | none => ([], [Ev.objectKeys h])
    | some s => (parseKeys s, [Ev.objectKeys h])

/-- `Array::length`. -/
def Arr.length (rt : Runtime) (a : Arr) : Int × List Ev :=
  match a.v.h with
  | none => (0, [])
  | some h => (rt.arrayLengthF h, [Ev.arrayLength h])

/-- `Array::get`. -/
def Arr.get (rt : Runtime) (a : Arr) (i : Int) : Value × List Ev :=
  match a.v.h with
  | none => (Value.nullV, [])
  | some h =>
    let out := rt.arrayGetF h i
    let c := Value.fromNative out false
    (c.1, [Ev.arrayGet h i] ++ c.2)

/-- `Array::set`. -/
def Arr.set (a : Arr) (i : Int) (x : Value) : Except String (List Ev) :=
  match a.v.h with
  | none => .error "Array::set on null handle"
  | some h => .ok [Ev.arraySet h i (Engine.valueToNativeArg x)]

/-- `Array::push`. -/
def Arr.push (a : Arr) (x : Value) : Except String (List Ev) :=
  match a.v.h with
  | none => .error "Array::push on null handle"
  | some h => .ok [Ev.arrayPush h (Engine.valueToNativeArg x)]

/-- `Class::addMethod(methodName, fn)`: throws on a null class handle (the
function argument is then untouched); otherwise detaches the function's
handle and hands it to the consuming `minijs_class_add_method`.  Returns the
call outcome and the function wrapper's post-call state. -/
def Cls.addMethod (c : Cls) (m : String) (fn : Fn) : Except String (List Ev) × Fn :=
  match c.v.h with
  | none => (.error "Class::addMethod on null handle", fn)
  | some h =>
    let d := fn.v.detachHandle
    (.ok [Ev.classAddMethod h m d.1], ⟨d.2⟩)

/-- The outcome of running a host closure: normal return, a thrown
`std::exception` carrying `what()`, or any other thrown object. -/
inductive CbResult : Type
  | ok (v : Value)
  | exn (msg : String)
  | exnOther

/-- `Engine::Binding`: nullable engine pointer plus the host closure. -/
structure Binding : Type where
  engine : Option Nat
  cb : List Value → Value → CbResult

/-- The return-value conversion at the end of `Engine::trampoline`:
primitives copy by value, a string result is handed to the runtime in a
`minijs_malloc` buffer, a non-null handle of handle kind is detached so the
runtime becomes sole owner.  Returns (transport record, `ret`'s post state,
emitted boundary calls). -/
def convertRet (ret : Value) : MValue × Value × List Ev :=
  let out : MValue :=
    ⟨ret.kind.toInt, ret.toNumber 0, if ret.toBool false then 1 else 0, none, none⟩
  if ret.kind = .string then
    ({ out with kind := 3, str := some ret.s }, ret, [])
  else if ret.kind.isHandleKind && ret.h.isSome then
    let d := ret.detachHandle
    ({ out with handle := d.1 }, d.2, [])
  else (out, ret, [])

/-- Destructor calls of a list of wrappers (the `std::vector<Value> args`
going out of scope). -/
def cleanupAll (vs : List Value) : List Ev :=
  vs.foldr (fun a acc => Value.cleanup a ++ acc) []

/-- `Engine::trampoline`: resolve the binding (returning a zero-initialized
Null record when the user-context pointer or the engine is absent), convert
arguments and receiver with a retain, run the closure, convert the result,
and catch every failure as a String-kind diagnostic.  The function is total:
no failure leaves it. -/
def trampoline (userdata : Option Binding) (argv : List MValue)
    (thisVal : Option MValue) : MValue × List Ev :=
  match userdata with
  | none => (MValue.nullM, [])
  | some b =>
    match b.engine with
    | none => (MValue.nullM, [])
    | some _ =>
      let conv := argv.map (fun nv => Value.fromNative nv true)
      let args := conv.map Prod.fst
      let argEv := conv.foldr (fun pr acc => pr.2 ++ acc) []
      let tvp :=
        match thisVal with
        | none => (Value.nullV, ([] : List Ev))
        | some t => Value.fromNative t true
      match b.cb args tvp.1 with
      | .ok ret =>
        let cr := convertRet ret
        (cr.1,
          argEv ++ tvp.2 ++ [Ev.cbInvoked] ++ cr.2.2
            ++ Value.cleanup cr.2.1 ++ Value.cleanup tvp.1 ++ cleanupAll args)
      | .exn msg =>
        (⟨3, 0, 0, some ("Error: " ++ msg), none⟩,
          argEv ++ tvp.2 ++ [Ev.cbInvoked]
            ++ Value.cleanup tvp.1 ++ cleanupAll args)
      | .exnOther =>
        (⟨3, 0, 0, some "Error: unknown native exception", none⟩,
          argEv ++ tvp.2 ++ [Ev.cbInvoked]
            ++ Value.cleanup tvp.1 ++ cleanupAll args)

/-!  Trace semantics for wrapper lifecycles (refcount balance).

A `Wstate` is the collection of live wrappers together with the log of
retain/release calls issued so far.  `Op`s are the wrapper operations the
source defines; an operation naming a wrapper index outside the live set is
a no-op.  Wrapper identity is positional, which lets the model express the
`this == &o` self-assignment shortcut of the source. -/

/-- A wrapper-lifecycle operation. -/
inductive Op : Type
  | create (k : Kind) (h : Option Nat) (retain : Bool)
  | copy (i : Nat)
  | move (i : Nat)
  | copyAssign (i j : Nat)
  | moveAssign (i j : Nat)
  | destroy (i : Nat)
  deriving DecidableEq, Repr

/-- Live wrappers plus the boundary-call log. -/
structure Wstate : Type where
  ws : List Value
  log : List Ev
  deriving Repr

/-- One wrapper operation, emitting the boundary calls the source makes. -/
def Wstep (s : Wstate) : Op → Wstate
  | .create k h r =>
    let c := Value.handleMk k h r
    ⟨s.ws ++ [c.1], s.log ++ c.2⟩
  | .copy i =>
    match s.ws[i]? with
    | none => s
    | some src =>
      let c := Value.copyCtor src
      ⟨s.ws ++ [c.1], s.log ++ c.2⟩
  | .move i =>
    match s.ws[i]? with
    | none => s
    | some src =>
      let c := Value.moveCtor src
      ⟨(s.ws.set i c.2.1) ++ [c.1], s.log ++ c.2.2⟩
  | .copyAssign i j =>
    if i = j then s
    else
      match s.ws[i]?, s.ws[j]? with
      | some dst, some src =>
        let c := Value.copyAssignF dst src
        ⟨s.ws.set i c.1, s.log ++ c.2⟩
      | _, _ => s
  | .moveAssign i j =>
    if i = j then s
    else
      match s.ws[i]?, s.ws[j]? with
      | some dst, some src =>
        let c := Value.moveAssignF dst src
        ⟨(s.ws.set i c.1).set j c.2.1, s.log ++ c.2.2⟩
      | _, _ => s
  | .destroy i =>
    match s.ws[i]? with
    | none => s
    | some v => ⟨s.ws.eraseIdx i, s.log ++ v.cleanup⟩

/-- Run a sequence of wrapper operations. -/
def Wrun (ops : List Op) (s : Wstate) : Wstate := ops.foldl Wstep s

/-- A wrapper owns a reference to handle `p`. -/
def ownsH (p : Nat) (v : Value) : Bool :=
  decide (v.h = some p) && v.kind.isHandleKind

/-- How many live wrappers own a reference to handle `p`. -/
def ownersH (p : Nat) (ws : List Value) : Nat := ws.countP (ownsH p)

/-- The event is `retain p`. -/
def isRetain (p : Nat) (e : Ev) : Bool := decide (e = Ev.retain p)

/-- The event is `release p`. -/
def isRelease (p : Nat) (e : Ev) : Bool := decide (e = Ev.release p)

/-- Number of `retain p` calls in a log. -/
def retainsH (p : Nat) (log : List Ev) : Nat := log.countP (isRetain p)

/-- Number of `release p` calls in a log. -/
def releasesH (p : Nat) (log : List Ev) : Nat := log.countP (isRelease p)

/-- The `create` operations a lifecycle trace of handle-kind wrappers may
contain: `Value::Handle` with a handle kind and `retain = true` (as the
trampoline's `fromNative(·, true)` produces). -/
def Op.ok : Op → Prop
  | .create k _ r => k.isHandleKind = true ∧ r = true
  | _ => True

instance : DecidablePred Op.ok := by
  intro op
  cases op <;> simp only [Op.ok] <;> infer_instance

lemma countP_set_add {α : Type} (p : α → Bool) (l : List α) (i : Nat) (x : α)
    (hi : i < l.length) :
    (l.set i x).countP p + (if p (l.get ⟨i, hi⟩) then 1 else 0)
      = l.countP p + (if p x then 1 else 0) := by
  induction l generalizing i with
  | nil => simp at hi
  | cons a t ih =>
    cases i with
    | zero =>
      simp only [List.set, List.countP_cons, List.get]
      omega
    | succ n =>
      have hn : n < t.length := by simpa using hi
      have h2 := ih n hn
      simp only [List.set, List.countP_cons, List.get]
      omega

lemma countP_eraseIdx_add {α : Type} (p : α → Bool) (l : List α) (i : Nat)
    (hi : i < l.length) :
    (l.eraseIdx i).countP p + (if p (l.get ⟨i, hi⟩) then 1 else 0)
      = l.countP p := by
  induction l generalizing i with
  | nil => simp at hi
  | cons a t ih =>
    cases i with
    | zero =>
      simp only [List.eraseIdx, List.countP_cons, List.get]
    | succ n =>
      have hn : n < t.length := by simpa using hi
      have h2 := ih n hn
      simp only [List.eraseIdx, List.countP_cons, List.get]
      omega

lemma countP_isRetain_copyRetainEv (p : Nat) (v : Value) :
    (Value.copyRetainEv v).countP (isRetain p) = if ownsH p v then 1 else 0 := by
  unfold Value.copyRetainEv ownsH
  cases hv : v.h with
  | none => simp
  | some q =>
    by_cases hk : v.kind.isHandleKind = true <;> by_cases hq : q = p <;>
      simp [hk, hq, isRetain, List.countP_cons]

lemma countP_isRelease_copyRetainEv (p : Nat) (v : Value) :
    (Value.copyRetainEv v).countP (isRelease p) = 0 := by
  unfold Value.copyRetainEv
  cases v.h with
  | none => simp
  | some q =>
    by_cases hk : v.kind.isHandleKind = true <;>
      simp [hk, isRelease, List.countP_cons]

lemma countP_isRelease_cleanup (p : Nat) (v : Value) :
    v.cleanup.countP (isRelease p) = if ownsH p v then 1 else 0 := by
  unfold Value.cleanup ownsH
  cases hv : v.h with
  | none => simp
  | some q =>
    by_cases hk : v.kind.isHandleKind = true <;> by_cases hq : q = p <;>
      simp [hk, hq, isRelease, List.countP_cons]

lemma countP_isRetain_cleanup (p : Nat) (v : Value) :
    v.cleanup.countP (isRetain p) = 0 := by
  unfold Value.cleanup
  cases v.h with
  | none => simp
  | some q =>
    by_cases hk : v.kind.isHandleKind = true <;>
      simp [hk, isRetain, List.countP_cons]

lemma ownsH_nullV (p : Nat) : ownsH p Value.nullV = false := by
  simp [ownsH, Value.nullV]

/-- Every `Wstep` preserves the per-handle balance between retains issued,
releases issued and live owning wrappers. -/
lemma balanced_step (p : Nat) (s : Wstate) (op : Op) (hok : Op.ok op)
    (hbal : retainsH p s.log = releasesH p s.log + ownersH p s.ws) :
    retainsH p (Wstep s op).log
      = releasesH p (Wstep s op).log + ownersH p (Wstep s op).ws := by
  unfold retainsH releasesH ownersH at hbal ⊢
  cases op with
  | create k h r =>
    obtain ⟨hk, hr⟩ := hok
    subst hr
    simp only [Wstep, Value.handleMk]
    cases h with
    | none =>
      simp only [List.countP_append, List.countP_cons, List.countP_nil]
      have ho : ownsH p ⟨k, 0, false, "", none⟩ = false := by simp [ownsH]
      simp [ho]
      omega
    | some q =>
      simp only [List.countP_append, List.countP_cons, List.countP_nil]
      by_cases hq : q = p
      · have ho : ownsH p ⟨k, 0, false, "", some q⟩ = true := by
          simp [ownsH, hk, hq]
        have hr2 : isRetain p (Ev.retain q) = true := by simp [isRetain, hq]
        have hre : isRelease p (Ev.retain q) = false := by simp [isRelease]
        simp [ho, hr2, hre]
        omega
      · have ho : ownsH p ⟨k, 0, false, "", some q⟩ = false := by
          simp [ownsH, hq]
        simp [ho, isRetain, isRelease, hq]
        omega
  | copy i =>
    simp only [Wstep]
    cases hg : s.ws[i]? with
    | none => exact hbal
    | some src =>
      simp only [Value.copyCtor, List.countP_append, List.countP_cons,
        List.countP_nil, countP_isRetain_copyRetainEv,
        countP_isRelease_copyRetainEv]
      by_cases ho : ownsH p src = true <;> simp [ho] <;> omega
  | move i =>
    simp only [Wstep]
    cases hg : s.ws[i]? with
    | none => exact hbal
    | some src =>
      obtain ⟨hi, hgi⟩ := List.getElem?_eq_some_iff.mp hg
      have hset := countP_set_add (ownsH p) s.ws i Value.nullV hi
      simp only [List.get_eq_getElem, hgi, ownsH_nullV] at hset
      simp only [Value.moveCtor, List.countP_append, List.countP_cons,
        List.countP_nil]
      by_cases ho : ownsH p src = true <;> simp [ho] at hset ⊢ <;> omega
  | copyAssign i j =>
    simp only [Wstep]
    by_cases hij : i = j
    · simp only [hij, if_pos rfl]
      exact hbal
    · simp only [if_neg hij]
      cases hgi : s.ws[i]? with
      | none => cases s.ws[j]? <;> exact hbal
      | some dst =>
        cases hgj : s.ws[j]? with
        | none => exact hbal
        | some src =>
          obtain ⟨hi, hdi⟩ := List.getElem?_eq_some_iff.mp hgi
          have hset := countP_set_add (ownsH p) s.ws i src hi
          simp only [List.get_eq_getElem, hdi] at hset
          simp only [Value.copyAssignF, List.countP_append,
            countP_isRetain_copyRetainEv, countP_isRelease_copyRetainEv,
            countP_isRetain_cleanup, countP_isRelease_cleanup]
          omega
  | moveAssign i j =>
    simp only [Wstep]
    by_cases hij : i = j
    · simp only [hij, if_pos rfl]
      exact hbal
    · simp only [if_neg hij]
      cases hgi : s.ws[i]? with
      | none => cases s.ws[j]? <;> exact hbal
      | some dst =>
        cases hgj : s.ws[j]? with
        | none => exact hbal
        | some src =>
          obtain ⟨hi, hdi⟩ := List.getElem?_eq_some_iff.mp hgi
          obtain ⟨hj, hdj⟩ := List.getElem?_eq_some_iff.mp hgj
          have hset1 := countP_set_add (ownsH p) s.ws i src hi
          simp only [List.get_eq_getElem, hdi] at hset1
          have hj2 : j < (s.ws.set i src).length := by simpa using hj
          have hset2 := countP_set_add (ownsH p) (s.ws.set i src) j
            Value.nullV hj2
          have hne : (s.ws.set i src).get ⟨j, hj2⟩ = src := by
            simp only [List.get_eq_getElem]
            rw [List.getElem_set_ne (by omega)]
            exact hdj
          rw [hne, ownsH_nullV] at hset2
          simp only [Value.moveAssignF, List.countP_append,
            countP_isRetain_cleanup, countP_isRelease_cleanup]
          simp only [if_neg (by simp : ¬ (false = true))] at hset2
          omega
  | destroy i =>
    simp only [Wstep]
    cases hg : s.ws[i]? with
    | none => exact hbal
    | some v =>
      obtain ⟨hi, hgi⟩ := List.getElem?_eq_some_iff.mp hg
      have herase := countP_eraseIdx_add (ownsH p) s.ws i hi
      simp only [List.get_eq_getElem, hgi] at herase
      simp only [List.countP_append, countP_isRetain_cleanup,
        countP_isRelease_cleanup]
      omega

/-- `Wrun` preserves the balance. -/
lemma balanced_run (p : Nat) (ops : List Op) (s : Wstate)
    (hok : ∀ op ∈ ops, Op.ok op)
    (hbal : retainsH p s.log = releasesH p s.log + ownersH p s.ws) :
    retainsH p (Wrun ops s).log
      = releasesH p (Wrun ops s).log + ownersH p (Wrun ops s).ws := by
  induction ops generalizing s with
  | nil => exact hbal
  | cons op rest ih =>
    exact ih (Wstep s op)
      (fun o ho => hok o (List.mem_cons_of_mem _ ho))
      (balanced_step p s op (hok op (List.mem_cons_self _ _)) hbal)

/-- An arbitrary concrete runtime oracle, used to instantiate universally
quantified oracle arguments on concrete inputs. -/
def rtConst : Runtime :=
  ⟨fun _ _ => 1, fun _ _ => MValue.nullM, fun _ => none,
   fun _ => 0, fun _ _ => MValue.nullM⟩

/-- C8: `toNumber(def)` returns the stored number for Number kind, `1`/`0`
for Bool `true`/`false`, and the caller-supplied default for every other
kind; `toBool(def)` returns the stored boolean for Bool kind, "number is
nonzero" for Number kind, and the default for every other kind. -/
theorem C8_coercions (v : Value) (dn : Rat) (db : Bool) :
    (v.kind = .number → v.toNumber dn = v.num) ∧
    (v.kind = .bool → v.toNumber dn = (if v.b then 1 else 0)) ∧
    (v.kind ≠ .number → v.kind ≠ .bool → v.toNumber dn = dn) ∧
    (v.kind = .bool → v.toBool db = v.b) ∧
    (v.kind = .number → (v.toBool db = true ↔ v.num ≠ 0)) ∧
    (v.kind ≠ .number → v.kind ≠ .bool → v.toBool db = db) := by
  refine ⟨fun h => by simp [Value.toNumber, h],
    fun h => by simp [Value.toNumber, h],
    fun h1 h2 => by simp [Value.toNumber, h1, h2],
    fun h => by simp [Value.toBool, h],
    fun h => by simp [Value.toBool, h],
    fun h1 h2 => by simp [Value.toBool, h1, h2]⟩

/-- Witness for C8 at concrete values of each kind. -/
theorem C8_coercions_witness :
    (Value.numberV 5).toNumber 9 = 5 ∧
    (Value.boolV true).toNumber 9 = 1 ∧
    (Value.stringV "x").toNumber 9 = 9 ∧
    (Value.boolV false).toBool true = false ∧
    ((Value.numberV 5).toBool false = true ↔ (5 : Rat) ≠ 0) ∧
    Value.nullV.toBool true = true := by
  refine ⟨(C8_coercions (Value.numberV 5) 9 true).1 rfl,
    (C8_coercions (Value.boolV true) 9 true).2.1 rfl,
    (C8_coercions (Value.stringV "x") 9 true).2.2.1 (by decide) (by decide),
    (C8_coercions (Value.boolV false) 9 true).2.2.2.1 rfl,
    ?_,
    (C8_coercions Value.nullV 9 true).2.2.2.2.2 (by decide) (by decide)⟩
  exact (C8_coercions (Value.numberV 5) 9 false).2.2.2.2.1 rfl

/-- C10: `Value::fromNative` is total over all `int32` discriminants — any
discriminant outside `0..8` yields the Null `Value` with no retain performed
(empty boundary-call list) and no failure raised. -/
theorem C10_fromNative_total (nv : MValue) (r : Bool)
    (hk : nv.kind < 0 ∨ 8 < nv.kind) :
    Value.fromNative nv r = (Value.nullV, []) := by
  unfold Value.fromNative
  repeat rw [if_neg (by omega)]

/-- Witness for C10 at discriminant `9` with a handle attached. -/
theorem C10_fromNative_total_witness :
    (((9 : Int) < 0 ∨ 8 < (9 : Int)) ∧
      Value.fromNative ⟨9, 0, 0, none, some 3⟩ true = (Value.nullV, [])) ∧
    Value.fromNative ⟨-1, 0, 0, none, some 3⟩ true = (Value.nullV, []) :=
  ⟨⟨Or.inr (by norm_num),
    C10_fromNative_total ⟨9, 0, 0, none, some 3⟩ true (Or.inr (by norm_num))⟩,
   C10_fromNative_total ⟨-1, 0, 0, none, some 3⟩ true (Or.inl (by norm_num))⟩

/-- C6: constructing a typed view from a `Value` whose kind does not match
fails synchronously at construction with the view's kind-mismatch failure,
never yielding a view. -/
theorem C6_view_kind_check (v : Value) :
    (v.kind ≠ .object →
      Obj.fromValue v = .error "Object: Value is not an object") ∧
    (v.kind ≠ .array →
      Arr.fromValue v = .error "Array: Value is not an array") ∧
    (v.kind ≠ .function →
      Fn.fromValue v = .error "Function: Value is not a function") ∧
    (v.kind ≠ .cls →
      Cls.fromValue v = .error "Class: Value is not a class") := by
  refine ⟨fun h => ?_, fun h => ?_, fun h => ?_, fun h => ?_⟩ <;>
    simp [Obj.fromValue, Arr.fromValue, Fn.fromValue, Cls.fromValue, h]

/-- Witness for C6: a Null-kind `Value` fails Object-view construction, and —
the claim's example — an Object-kind `Value` fails Array-view construction. -/
theorem C6_view_kind_check_witness :
    (Value.nullV.kind ≠ Kind.object ∧
      Obj.fromValue Value.nullV = .error "Object: Value is not an object") ∧
    ((Value.handleMk .object (some 1) false).1.kind ≠ Kind.array ∧
      Arr.fromValue (Value.handleMk .object (some 1) false).1
        = .error "Array: Value is not an array") :=
  ⟨⟨by decide, (C6_view_kind_check Value.nullV).1 (by decide)⟩,
   ⟨by decide,
    (C6_view_kind_check (Value.handleMk .object (some 1) false).1).2.1
      (by decide)⟩⟩

/-- C9: a trampoline invocation whose user-context pointer is null, or whose
resolved binding has no engine, returns the Null transport record at once and
makes no boundary call at all: no argument conversion (no retain events) and
no closure invocation (no `cbInvoked` event). -/
theorem C9_trampoline_defensive (argv : List MValue) (thisVal : Option MValue) :
    trampoline none argv thisVal = (MValue.nullM, []) ∧
    ∀ cb : List Value → Value → CbResult,
      trampoline (some ⟨none, cb⟩) argv thisVal = (MValue.nullM, []) :=
  ⟨rfl, fun _ => rfl⟩

/-- C7: `declareCopy` on a handle-kind `Value` holding a handle performs
exactly one extra retain, sequenced before the consuming global-declare call,
and leaves the caller's wrapper untouched and still owning (its destruction
still releases once). -/
theorem C7_declareCopy (name : String) (v : Value) (p : Nat)
    (hh : v.h = some p) (hk : v.kind.isHandleKind = true) :
    Engine.declareCopy name v
      = (v, [Ev.retain p,
             Ev.globalDeclare name
               { Engine.valueToNativeArg v with handle := some p }]) ∧
    retainsH p (Engine.declareCopy name v).2 = 1 ∧
    v.cleanup = [Ev.release p] := by
  have h1 : Engine.declareCopy name v
      = (v, [Ev.retain p,
             Ev.globalDeclare name
               { Engine.valueToNativeArg v with handle := some p }]) := by
    unfold Engine.declareCopy
    rw [hh]
    simp [hk]
  refine ⟨h1, ?_, ?_⟩
  · rw [h1]
    simp [retainsH, isRetain, List.countP_cons]
  · unfold Value.cleanup
    rw [hh]
    simp [hk]

/-- Witness for C7 at a concrete Object-kind wrapper holding handle 4. -/
theorem C7_declareCopy_witness :
    ((⟨Kind.object, 0, false, "", some 4⟩ : Value).h = some 4 ∧
      Kind.isHandleKind (⟨Kind.object, 0, false, "", some 4⟩ : Value).kind
        = true) ∧
    (Engine.declareCopy "g" ⟨Kind.object, 0, false, "", some 4⟩
      = (⟨Kind.object, 0, false, "", some 4⟩,
         [Ev.retain 4,
          Ev.globalDeclare "g"
            { Engine.valueToNativeArg ⟨Kind.object, 0, false, "", some 4⟩ with
                handle := some 4 }]) ∧
      retainsH 4 (Engine.declareCopy "g"
        ⟨Kind.object, 0, false, "", some 4⟩).2 = 1 ∧
      (⟨Kind.object, 0, false, "", some 4⟩ : Value).cleanup
        = [Ev.release 4]) :=
  ⟨⟨rfl, rfl⟩, C7_declareCopy "g" ⟨Kind.object, 0, false, "", some 4⟩ 4 rfl rfl⟩

/-- C5: on a view whose wrapped `Value` holds no handle, the reads
(`Object::has/get/keys`, `Array::length/get`) return `false`, Null, the empty
sequence, `0`, Null, each with an empty boundary-call list (no call into the
runtime), and the writes (`Object::set`, `Array::set/push`,
`Class::addMethod`) each fail immediately. -/
theorem C5_null_view_ops (v : Value) (hv : v.h = none) :
    (∀ rt key, Obj.has rt ⟨v⟩ key = (false, [])) ∧
    (∀ rt key, Obj.get rt ⟨v⟩ key = (Value.nullV, [])) ∧
    (∀ rt, Obj.keys rt ⟨v⟩ = ([], [])) ∧
    (∀ rt, Arr.length rt ⟨v⟩ = (0, [])) ∧
    (∀ rt i, Arr.get rt ⟨v⟩ i = (Value.nullV, [])) ∧
    (∀ key x, Obj.set ⟨v⟩ key x = .error "Object::set on null handle") ∧
    (∀ i x, Arr.set ⟨v⟩ i x = .error "Array::set on null handle") ∧
    (∀ x, Arr.push ⟨v⟩ x = .error "Array::push on null handle") ∧
    (∀ m fn, Cls.addMethod ⟨v⟩ m fn
      = (.error "Class::addMethod on null handle", fn)) := by
  refine ⟨fun rt key => ?_, fun rt key => ?_, fun rt => ?_, fun rt => ?_,
    fun rt i => ?_, fun key x => ?_, fun i x => ?_, fun x => ?_,
    fun m fn => ?_⟩ <;>
    simp [Obj.has, Obj.get, Obj.keys, Arr.length, Arr.get, Obj.set,
      Arr.set, Arr.push, Cls.addMethod, hv]

/-- Witness for C5 on the default-constructed (Null) view state. -/
theorem C5_null_view_ops_witness :
    Value.nullV.h = none ∧
    Obj.has rtConst ⟨Value.nullV⟩ "k" = (false, []) ∧
    Obj.get rtConst ⟨Value.nullV⟩ "k" = (Value.nullV, []) ∧
    Obj.keys rtConst ⟨Value.nullV⟩ = ([], []) ∧
    Arr.length rtConst ⟨Value.nullV⟩ = (0, []) ∧
    Arr.get rtConst ⟨Value.nullV⟩ 0 = (Value.nullV, []) ∧
    Obj.set ⟨Value.nullV⟩ "k" (Value.numberV 1)
      = .error "Object::set on null handle" ∧
    Arr.set ⟨Value.nullV⟩ 0 (Value.numberV 1)
      = .error "Array::set on null handle" ∧
    Arr.push ⟨Value.nullV⟩ (Value.numberV 1)
      = .error "Array::push on null handle" ∧
    Cls.addMethod ⟨Value.nullV⟩ "m" ⟨Value.nullV⟩
      = (.error "Class::addMethod on null handle", ⟨Value.nullV⟩) :=
  ⟨rfl,
   (C5_null_view_ops Value.nullV rfl).1 rtConst "k",
   (C5_null_view_ops Value.nullV rfl).2.1 rtConst "k",
   (C5_null_view_ops Value.nullV rfl).2.2.1 rtConst,
   (C5_null_view_ops Value.nullV rfl).2.2.2.1 rtConst,
   (C5_null_view_ops Value.nullV rfl).2.2.2.2.1 rtConst 0,
   (C5_null_view_ops Value.nullV rfl).2.2.2.2.2.1 "k" (Value.numberV 1),
   (C5_null_view_ops Value.nullV rfl).2.2.2.2.2.2.1 0 (Value.numberV 1),
   (C5_null_view_ops Value.nullV rfl).2.2.2.2.2.2.2.1 (Value.numberV 1),
   (C5_null_view_ops Value.nullV rfl).2.2.2.2.2.2.2.2 "m" ⟨Value.nullV⟩⟩

/-- C4: the key-enumeration parser decodes the escape pairs
backslash-backslash, backslash-quote, `\n`, `\r`, `\t` to backslash, quote,
newline, carriage-return, tab, passes any other escaped character through
literally, parses the example text to the sequence `a`, `b<newline>`,
`c"`, and yields an empty or partial sequence (never a failure — the parser
is a total function) on malformed input. -/
theorem C4_keys_enumeration :
    (∀ e rest, readStr ('\\' :: e :: rest)
        = ((escChar e) :: (readStr rest).1, (readStr rest).2)) ∧
    escChar '\\' = '\\' ∧ escChar '"' = '"' ∧ escChar 'n' = '\n' ∧
    escChar 'r' = '\r' ∧ escChar 't' = '\t' ∧
    (∀ c, c ≠ '\\' → c ≠ '"' → c ≠ 'n' → c ≠ 'r' → c ≠ 't' →
      escChar c = c) ∧
    parseKeys "[\"a\",\"b\\n\",\"c\\\"\"]" = ["a", "b\n", "c\""] ∧
    parseKeys "[" = [] ∧
    parseKeys "[\"ab" = ["ab"] := by
  refine ⟨fun e rest => rfl, rfl, rfl, rfl, rfl, rfl,
    fun c h1 h2 h3 h4 h5 => ?_, by decide, by decide, by decide⟩
  simp [escChar, h1, h2, h3, h4, h5]

/-- Witness for C4: the pass-through clause at the character `x`. -/
theorem C4_keys_enumeration_witness :
    (('x' ≠ '\\') ∧ ('x' ≠ '"') ∧ ('x' ≠ 'n') ∧ ('x' ≠ 'r') ∧
      ('x' ≠ 't')) ∧
    escChar 'x' = 'x' ∧
    readStr ('\\' :: 'x' :: '"' :: [])
      = ((escChar 'x') :: (readStr ['"']).1, (readStr ['"']).2) :=
  ⟨⟨by decide, by decide, by decide, by decide, by decide⟩,
   C4_keys_enumeration.2.2.2.2.2.2.1 'x' (by decide) (by decide) (by decide)
     (by decide) (by decide),
   C4_keys_enumeration.1 'x' ['"']⟩

/-- C1: if the registered closure raises any failure (any C++ exception),
the trampoline returns a String-kind transport record whose text begins with
the marker `"Error: "`; and the trampoline is a total function of the
closure's outcome — the model of "no exception ever crosses the ABI
boundary". -/
theorem C1_trampoline_catches (eng : Nat) (cb : List Value → Value → CbResult)
    (argv : List MValue) (thisVal : Option MValue)
    (hfail : ∀ a t v, cb a t ≠ CbResult.ok v) :
    (trampoline (some ⟨some eng, cb⟩) argv thisVal).1.kind = 3 ∧
    ∃ rest, (trampoline (some ⟨some eng, cb⟩) argv thisVal).1.str
        = some ("Error: " ++ rest) := by
  cases hcb : cb ((argv.map (fun nv => Value.fromNative nv true)).map Prod.fst)
      (match thisVal with
       | none => (Value.nullV, ([] : List Ev))
       | some t => Value.fromNative t true).1 with
  | ok v =>
    exact absurd hcb (hfail _ _ v)
  | exn msg =>
    have h1 : (trampoline (some ⟨some eng, cb⟩) argv thisVal).1
        = ⟨3, 0, 0, some ("Error: " ++ msg), none⟩ := by
      unfold trampoline
      simp only [hcb]
    rw [h1]
    exact ⟨rfl, msg, rfl⟩
  | exnOther =>
    have h1 : (trampoline (some ⟨some eng, cb⟩) argv thisVal).1
        = ⟨3, 0, 0, some "Error: unknown native exception", none⟩ := by
      unfold trampoline
      simp only [hcb]
    rw [h1]
    exact ⟨rfl, "unknown native exception", rfl⟩

/-- Witness for C1: a closure that always throws `std::runtime_error("boom")`. -/
theorem C1_trampoline_catches_witness :
    (∀ a t v, (fun _ _ => CbResult.exn "boom" :
        List Value → Value → CbResult) a t ≠ CbResult.ok v) ∧
    (trampoline (some ⟨some 0, fun _ _ => CbResult.exn "boom"⟩)
        [] none).1.kind = 3 ∧
    ∃ rest, (trampoline (some ⟨some 0, fun _ _ => CbResult.exn "boom"⟩)
        [] none).1.str = some ("Error: " ++ rest) :=
  ⟨fun _ _ _ h => CbResult.noConfusion h,
   (C1_trampoline_catches 0 (fun _ _ => CbResult.exn "boom") [] none
      (fun _ _ _ h => CbResult.noConfusion h)).1,
   (C1_trampoline_catches 0 (fun _ _ => CbResult.exn "boom") [] none
      (fun _ _ _ h => CbResult.noConfusion h)).2⟩

/-- Counterexample to C2 as stated: a handle-kind `Value` whose handle is
null.  `declareMove` leaves such a wrapper entirely unchanged (kind stays
`object`, not `Null`), and `addMethod` invoked on a class view with no
handle fails before consuming, leaving the function wrapper's kind and
handle intact — so "after the operation v's wrapper is in the Null state"
fails on the code. -/
theorem C2_counterexample :
    Kind.object ≠ Kind.null ∧
    (Engine.declareMove "g" ⟨Kind.object, 0, false, "", none⟩).1.kind
      = Kind.object ∧
    (Cls.addMethod ⟨Value.nullV⟩ "m"
      ⟨⟨Kind.function, 0, false, "", some 7⟩⟩).2.v.kind = Kind.function ∧
    (Cls.addMethod ⟨Value.nullV⟩ "m"
      ⟨⟨Kind.function, 0, false, "", some 7⟩⟩).2.v.h = some 7 := by
  exact ⟨by decide, rfl, rfl, rfl⟩

/-- C2 (amended: restricted to wrappers holding a non-null handle, and for
`addMethod` to calls on a class view that itself holds a handle): after a
consumed operation — `detachHandle`, `declareMove`, `addMethod`'s function
argument, or a handle-kind return through the trampoline — the wrapper is in
the Null state (kind Null, handle null) and its later destruction performs
no release of the handed-over handle. -/
theorem C2_consumed_detaches :
    (∀ v : Value, v.detachHandle.2.kind = Kind.null ∧
      v.detachHandle.2.h = none ∧ v.detachHandle.2.cleanup = []) ∧
    (∀ (name : String) (v : Value) (p : Nat), v.h = some p →
      v.kind.isHandleKind = true →
      (Engine.declareMove name v).1.kind = Kind.null ∧
      (Engine.declareMove name v).1.h = none ∧
      (Engine.declareMove name v).1.cleanup = []) ∧
    (∀ (c : Cls) (m : String) (fn : Fn) (q : Nat), c.v.h = some q →
      (Cls.addMethod c m fn).2.v.kind = Kind.null ∧
      (Cls.addMethod c m fn).2.v.h = none ∧
      (Cls.addMethod c m fn).2.v.cleanup = []) ∧
    (∀ (ret : Value) (p : Nat), ret.h = some p →
      ret.kind.isHandleKind = true →
      (convertRet ret).2.1.kind = Kind.null ∧
      (convertRet ret).2.1.h = none ∧
      (convertRet ret).2.1.cleanup = [] ∧
      (convertRet ret).1.handle = some p) := by
  refine ⟨fun v => ⟨rfl, rfl, rfl⟩, ?_, ?_, ?_⟩
  · intro name v p hh hk
    unfold Engine.declareMove
    rw [hh]
    simp [hk, Value.detachHandle, Value.nullV, Value.cleanup]
  · intro c m fn q hcq
    unfold Cls.addMethod
    rw [hcq]
    simp [Value.detachHandle, Value.nullV, Value.cleanup]
  · intro ret p hh hk
    have hs : ret.kind ≠ .string := by
      intro h
      rw [h] at hk
      exact absurd hk (by decide)
    unfold convertRet
    rw [hh]
    simp [hk, hs, hh, Value.detachHandle, Value.nullV, Value.cleanup]

/-- Witness for the amended C2 at concrete wrappers. -/
theorem C2_consumed_detaches_witness :
    ((⟨Kind.object, 0, false, "", some 4⟩ : Value).h = some 4 ∧
      Kind.isHandleKind Kind.object = true ∧
      (⟨⟨Kind.cls, 0, false, "", some 9⟩⟩ : Cls).v.h = some 9) ∧
    ((⟨Kind.object, 0, false, "", some 4⟩ : Value).detachHandle.2.kind
        = Kind.null) ∧
    ((Engine.declareMove "g" ⟨Kind.object, 0, false, "", some 4⟩).1.kind
        = Kind.null ∧
      (Engine.declareMove "g" ⟨Kind.object, 0, false, "", some 4⟩).1.h
        = none ∧
      (Engine.declareMove "g" ⟨Kind.object, 0, false, "", some 4⟩).1.cleanup
        = []) ∧
    ((Cls.addMethod ⟨⟨Kind.cls, 0, false, "", some 9⟩⟩ "m"
        ⟨⟨Kind.function, 0, false, "", some 7⟩⟩).2.v.kind = Kind.null ∧
      (Cls.addMethod ⟨⟨Kind.cls, 0, false, "", some 9⟩⟩ "m"
        ⟨⟨Kind.function, 0, false, "", some 7⟩⟩).2.v.h = none ∧
      (Cls.addMethod ⟨⟨Kind.cls, 0, false, "", some 9⟩⟩ "m"
        ⟨⟨Kind.function, 0, false, "", some 7⟩⟩).2.v.cleanup = []) ∧
    ((convertRet ⟨Kind.object, 0, false, "", some 4⟩).2.1.kind = Kind.null ∧
      (convertRet ⟨Kind.object, 0, false, "", some 4⟩).2.1.h = none ∧
      (convertRet ⟨Kind.object, 0, false, "", some 4⟩).2.1.cleanup = [] ∧
      (convertRet ⟨Kind.object, 0, false, "", some 4⟩).1.handle = some 4) :=
  ⟨⟨rfl, rfl, rfl⟩,
   (C2_consumed_detaches.1 ⟨Kind.object, 0, false, "", some 4⟩).1,
   C2_consumed_detaches.2.1 "g" ⟨Kind.object, 0, false, "", some 4⟩ 4 rfl rfl,
   C2_consumed_detaches.2.2.1 ⟨⟨Kind.cls, 0, false, "", some 9⟩⟩ "m"
     ⟨⟨Kind.function, 0, false, "", some 7⟩⟩ 9 rfl,
   C2_consumed_detaches.2.2.2 ⟨Kind.object, 0, false, "", some 4⟩ 4 rfl rfl⟩

/-- Counterexample to C3 as stated: move *assignment* onto a wrapper that
owns a handle does release that handle (the destination's cleanup), so "move
assignment performs neither a retain nor a release" fails; and the
self-assignment shortcut makes a copy assignment of a wrapper to itself
perform no retain at all, so "copy assignment performs exactly one retain"
fails. -/
theorem C3_counterexample :
    (Value.moveAssignF ⟨Kind.object, 0, false, "", some 5⟩
        ⟨Kind.object, 0, false, "", some 7⟩).2.2 = [Ev.release 5] ∧
    releasesH 5 (Value.moveAssignF ⟨Kind.object, 0, false, "", some 5⟩
        ⟨Kind.object, 0, false, "", some 7⟩).2.2 = 1 ∧
    (Wrun [Op.create Kind.object (some 5) true, Op.copyAssign 0 0]
        ⟨[], []⟩).log = [Ev.retain 5] ∧
    retainsH 5 (Wrun [Op.create Kind.object (some 5) true, Op.copyAssign 0 0]
        ⟨[], []⟩).log = 1 := by
  exact ⟨rfl, by decide, by decide, by decide⟩

/-- C3 (amended: the retain/release-free clause holds for move
*construction*; move and copy *assignment* additionally perform exactly the
release of the destination's previous payload that its destruction would
have performed, and nothing else): copy construction/assignment of a wrapper
holding a handle performs exactly one retain of that handle; move
construction performs no boundary call and nulls the source; destruction of
a wrapper still holding a handle-kind payload performs exactly one release;
and over any sequence of retained creations, copies, moves, assignments and
destructions after which no live wrapper owns handle `p`, the retains of `p`
issued equal the releases of `p` issued. -/
theorem C3_refcount_balance :
    (∀ (v : Value) (p : Nat), v.h = some p → v.kind.isHandleKind = true →
      (Value.copyCtor v).2 = [Ev.retain p]) ∧
    (∀ (dst v : Value) (p : Nat), v.h = some p →
      v.kind.isHandleKind = true →
      (Value.copyAssignF dst v).2 = dst.cleanup ++ [Ev.retain p]) ∧
    (∀ v : Value, Value.moveCtor v = (v, Value.nullV, [])) ∧
    (∀ dst v : Value, Value.moveAssignF dst v = (v, Value.nullV, dst.cleanup)) ∧
    (∀ (v : Value) (p : Nat), v.h = some p → v.kind.isHandleKind = true →
      v.cleanup = [Ev.release p]) ∧
    (∀ (ops : List Op) (p : Nat), (∀ op ∈ ops, Op.ok op) →
      ownersH p (Wrun ops ⟨[], []⟩).ws = 0 →
      retainsH p (Wrun ops ⟨[], []⟩).log
        = releasesH p (Wrun ops ⟨[], []⟩).log) := by
  refine ⟨?_, ?_, fun v => rfl, fun dst v => rfl, ?_, ?_⟩
  · intro v p hh hk
    unfold Value.copyCtor Value.copyRetainEv
    rw [hh]
    simp [hk]
  · intro dst v p hh hk
    unfold Value.copyAssignF Value.copyRetainEv
    rw [hh]
    simp [hk]
  · intro v p hh hk
    unfold Value.cleanup
    rw [hh]
    simp [hk]
  · intro ops p hok hz
    have h0 : retainsH p (Wstate.mk [] []).log
        = releasesH p (Wstate.mk [] []).log
          + ownersH p (Wstate.mk [] []).ws := rfl
    have hb := balanced_run p ops ⟨[], []⟩ hok h0
    omega

/-- Witness for the amended C3: concrete wrappers and a complete concrete
lifecycle (`create` retained, `copy`, destroy both). -/
theorem C3_refcount_balance_witness :
    ((⟨Kind.object, 0, false, "", some 3⟩ : Value).h = some 3 ∧
      Kind.isHandleKind Kind.object = true) ∧
    (Value.copyCtor ⟨Kind.object, 0, false, "", some 3⟩).2 = [Ev.retain 3] ∧
    (Value.copyAssignF Value.nullV ⟨Kind.object, 0, false, "", some 3⟩).2
      = Value.nullV.cleanup ++ [Ev.retain 3] ∧
    (⟨Kind.object, 0, false, "", some 3⟩ : Value).cleanup = [Ev.release 3] ∧
    ((∀ op ∈ [Op.create Kind.object (some 5) true, Op.copy 0,
        Op.destroy 1, Op.destroy 0], Op.ok op) ∧
      ownersH 5 (Wrun [Op.create Kind.object (some 5) true, Op.copy 0,
        Op.destroy 1, Op.destroy 0] ⟨[], []⟩).ws = 0 ∧
      retainsH 5 (Wrun [Op.create Kind.object (some 5) true, Op.copy 0,
        Op.destroy 1, Op.destroy 0] ⟨[], []⟩).log
        = releasesH 5 (Wrun [Op.create Kind.object (some 5) true, Op.copy 0,
            Op.destroy 1, Op.destroy 0] ⟨[], []⟩).log) :=
  ⟨⟨rfl, rfl⟩,
   C3_refcount_balance.1 ⟨Kind.object, 0, false, "", some 3⟩ 3 rfl rfl,
   C3_refcount_balance.2.1 Value.nullV ⟨Kind.object, 0, false, "", some 3⟩ 3
     rfl rfl,
   C3_refcount_balance.2.2.2.2.1 ⟨Kind.object, 0, false, "", some 3⟩ 3
     rfl rfl,
   ⟨by decide, by decide,
    C3_refcount_balance.2.2.2.2.2
      [Op.create Kind.object (some 5) true, Op.copy 0,
        Op.destroy 1, Op.destroy 0] 5 (by decide) (by decide)⟩⟩

end MiniJspp
